import Mathlib

/-!
Verification development for the GolemSP status bot (`bot.py`,
`platforms/render_network.py`, `platforms/ai_training.py`).

Python strings are modelled as lists of characters (`PyStr`); the Python
string primitives used by the source (`in`, `strip`, `split`, `replace`,
`startswith`, `isdigit`) are defined below by structural recursion so that
every definition is executable by the kernel.  Python `float` values are
modelled as rationals, Python `int` as `Int`, and fallible coercions
(`float(...)` / `int(...)` under `try/except`) as `Option`-returning
parsers.  I/O effects (the process spawn, the wall clock, file reads and
writes, message delivery) are passed in as explicit inputs or elided when
no claim depends on them.
-/

namespace GolemBot

/-- A Python string, modelled as its list of characters. -/
abbrev PyStr := List Char

/-- Python whitespace as used by `str.strip()` / `str.split()`. -/
def pySpace (c : Char) : Bool :=
  c = ' ' || c = '\t' || c = '\n' || c = '\r' || c = '\x0b' || c = '\x0c'

/-- Python `str.strip()`: drop whitespace from both ends. -/
def pyStrip (s : PyStr) : PyStr :=
  ((s.dropWhile pySpace).reverse.dropWhile pySpace).reverse

/-- `pyStartsWith pat s` is Python `s.startswith(pat)`. -/
def pyStartsWith : PyStr → PyStr → Bool
  | [], _ => true
  | _ :: _, [] => false
  | a :: as, b :: bs => a = b && pyStartsWith as bs

/-- `pyIn pat s` is Python `pat in s` (substring containment). -/
def pyIn (pat : PyStr) : PyStr → Bool
  | [] => pyStartsWith pat []
  | s@(_ :: rest) => pyStartsWith pat s || pyIn pat rest

/-- Split on a single character, keeping empty pieces
(the list-of-lines shape of Python `s.split('\n')`). -/
def splitOnChar (sep : Char) : PyStr → List PyStr
  | [] => [[]]
  | c :: rest =>
    let r := splitOnChar sep rest
    if c = sep then [] :: r
    else
      match r with
      | [] => [[c]]
      | h :: t => (c :: h) :: t

/-- Split on a predicate and drop empty pieces: Python `s.split()`
(whitespace split). -/
def splitAny (p : Char → Bool) : PyStr → List PyStr
  | [] => [[]]
  | c :: rest =>
    let r := splitAny p rest
    if p c then [] :: r
    else
      match r with
      | [] => [[c]]
      | h :: t => (c :: h) :: t

/-- Python `s.split()` with no argument: split on whitespace runs,
discarding empty pieces. -/
def pySplitWs (s : PyStr) : List PyStr :=
  (splitAny pySpace s).filter (fun p => p ≠ [])

/-- Fuel-indexed worker for `pySplit`; called with `fuel ≥ s.length`, and the
fuel decreases structurally so the kernel can evaluate it. -/
def pySplitAux (pat : PyStr) : Nat → PyStr → List PyStr
  | 0, s => [s]
  | _ + 1, [] => [[]]
  | fuel + 1, s@(c :: rest) =>
    if pyStartsWith pat s then
      [] :: pySplitAux pat fuel (s.drop pat.length)
    else
      match pySplitAux pat fuel rest with
      | [] => [[c]]
      | h :: t => (c :: h) :: t

/-- Python `s.split(pat)` for a nonempty separator `pat`. -/
def pySplit (pat s : PyStr) : List PyStr :=
  if pat = [] then [s] else pySplitAux pat s.length s

/-- Fuel-indexed worker for `pyReplace`; called with `fuel ≥ s.length`. -/
def pyReplaceAux (pat rep : PyStr) : Nat → PyStr → PyStr
  | 0, s => s
  | _ + 1, [] => []
  | fuel + 1, s@(c :: rest) =>
    if pyStartsWith pat s then
      rep ++ pyReplaceAux pat rep fuel (s.drop pat.length)
    else
      c :: pyReplaceAux pat rep fuel rest

/-- Python `s.replace(pat, rep)` for a nonempty pattern `pat`. -/
def pyReplace (pat rep s : PyStr) : PyStr :=
  if pat = [] then s else pyReplaceAux pat rep s.length s

/-- Last element of a list with a default: Python `xs[-1]` where the list
is known nonempty (`str.split` never returns an empty list). -/
def lastD (d : PyStr) : List PyStr → PyStr
  | [] => d
  | [x] => x
  | _ :: y :: t => lastD d (y :: t)

/-- ASCII decimal digit test (Python `str.isdigit` on the report's ASCII
content). -/
def pyIsDigit (c : Char) : Bool :=
  c = '0' || c = '1' || c = '2' || c = '3' || c = '4' ||
  c = '5' || c = '6' || c = '7' || c = '8' || c = '9'

/-- Value of a single ASCII digit. -/
def digitVal (c : Char) : Nat :=
  if c = '1' then 1 else if c = '2' then 2 else if c = '3' then 3
  else if c = '4' then 4 else if c = '5' then 5 else if c = '6' then 6
  else if c = '7' then 7 else if c = '8' then 8 else if c = '9' then 9
  else 0

/-- Digits-to-number accumulator. -/
def digitsToNat (s : PyStr) : Nat :=
  s.foldl (fun acc c => acc * 10 + digitVal c) 0

/-- Python `int(s)` restricted to the shapes the report can contain:
optional surrounding whitespace, optional sign, then decimal digits.
`none` models the `ValueError` swallowed by the source's `try/except`. -/
def pyInt? (s : PyStr) : Option Int :=
  let t := pyStrip s
  let (sgn, body) :=
    match t with
    | '-' :: rest => ((-1 : Int), rest)
    | '+' :: rest => ((1 : Int), rest)
    | _ => ((1 : Int), t)
  if body ≠ [] && body.all pyIsDigit then
    some (sgn * (digitsToNat body : Int))
  else
    none

/-- Python `float(s)` restricted to plain decimal literals (optional
surrounding whitespace, optional sign, digits with at most one decimal
point), which is the shape of the amounts in the status report.  `none`
models the `ValueError` swallowed by the source's `try/except`. -/
def pyFloat? (s : PyStr) : Option ℚ :=
  let t := pyStrip s
  let (sgn, body) :=
    match t with
    | '-' :: rest => ((-1 : ℚ), rest)
    | '+' :: rest => ((1 : ℚ), rest)
    | _ => ((1 : ℚ), t)
  match splitOnChar '.' body with
  | [a] =>
    if a ≠ [] && a.all pyIsDigit then some (sgn * (digitsToNat a : ℚ)) else none
  | [a, b] =>
    if (a = [] && b = []) then none
    else if a.all pyIsDigit && b.all pyIsDigit then
      some (sgn * ((digitsToNat a : ℚ) + (digitsToNat b : ℚ) / 10 ^ b.length))
    else none
  | _ => none

/-! ### Data model

`parse_status_data` builds a Python dict
`{'timestamp': ..., 'service': {...}, 'wallet': {...}, 'tasks': {...}}`
— or the bare empty dict `{}` for falsy input.  The sub-dicts hold
optional fields, absent until the corresponding line is recognized.
`StatusDict.empty` models the bare `{}` (falsy as a Python dict);
`StatusDict.snap` models the populated dict, which always carries a
`timestamp` key and the three sub-dicts and is therefore truthy. -/

/-- The `data['service']` sub-dict. -/
structure ServiceData where
  status : Option PyStr
  version : Option PyStr
  node_name : Option PyStr
  subnet : Option PyStr
deriving DecidableEq

/-- The `data['wallet']` sub-dict. -/
structure WalletData where
  address : Option PyStr
  total_glm : Option ℚ
  pending_glm : Option ℚ
deriving DecidableEq

/-- The `data['tasks']` sub-dict. -/
structure TasksData where
  last_hour_processed : Option Int
  in_progress : Option Int
  total_processed : Option Int
deriving DecidableEq

/-- A status-snapshot dict: either the bare `{}` or a populated snapshot. -/
inductive StatusDict where
  | empty
  | snap (timestamp : String) (service : ServiceData) (wallet : WalletData)
      (tasks : TasksData)
deriving DecidableEq

/-- `data.get('tasks', {}).get('in_progress', 0)`. -/
def StatusDict.tasksInProgress : StatusDict → Int
  | .empty => 0
  | .snap _ _ _ t => t.in_progress.getD 0

/-- `data.get('tasks', {}).get('total_processed', 0)`. -/
def StatusDict.tasksTotalProcessed : StatusDict → Int
  | .empty => 0
  | .snap _ _ _ t => t.total_processed.getD 0

/-- `data.get('wallet', {}).get('total_glm', 0.0)`. -/
def StatusDict.walletTotalGlm : StatusDict → ℚ
  | .empty => 0
  | .snap _ _ w _ => w.total_glm.getD 0

/-- Whether the dict carries the three sub-mappings (i.e. is not the bare
`{}`). -/
def StatusDict.hasSubMaps : StatusDict → Bool
  | .empty => false
  | .snap _ _ _ _ => true

/-- The clock-independent payload of a snapshot dict: everything except
the `timestamp` field. -/
def StatusDict.fields : StatusDict → Option (ServiceData × WalletData × TasksData)
  | .empty => none
  | .snap _ sv w tk => some (sv, w, tk)

/-- The `timestamp` field of a snapshot dict, when present. -/
def StatusDict.timestamp? : StatusDict → Option String
  | .empty => none
  | .snap t _ _ _ => some t

/-! ### Report parser (`bot.py`, `parse_status_data`, lines 255–350)

The source file stores the box-drawing characters of the `golemsp`
report as the mojibake sequences below (the UTF-8 bytes of `│`, `─`, …
decoded as cp1252); they are reproduced here codepoint for codepoint. -/

/-- The vertical-border string `'â”‚'` removed from every line. -/
def borderV : PyStr := ['â', '”', '‚']

/-- The horizontal-border string `'â”€'` tested in section detection. -/
def borderH : PyStr := ['â', '”', '€']

/-- The box-drawing strings of the separator-line test
`any(char in line for char in [...])` (line 295). -/
def separatorChars : List PyStr :=
  [ ['â', '”', '€'],
    ['â', '”', 'Œ'],
    ['â', '”', '”'],
    ['â', '”', 'œ'],
    ['â', '”', '¤'],
    ['â', '”'],
    ['â', '”', '˜'] ]

/-- The three recognized sections of the report. -/
inductive SectionName where
  | status
  | wallet
  | tasks
deriving DecidableEq

/-- The parser's loop state: `current_section` plus the three sub-dicts
accumulated so far. -/
structure ParseAcc where
  current_section : Option SectionName
  service : ServiceData
  wallet : WalletData
  tasks : TasksData
deriving DecidableEq

/-- Clean a line: `line.replace('â”‚', '').strip()`. -/
def cleanLine (line : PyStr) : PyStr :=
  pyStrip (pyReplace borderV [] line)

/-- The section name `'Status'`. -/
def nameStatus : PyStr := "Status".toList

/-- The section name `'Wallet'`. -/
def nameWallet : PyStr := "Wallet".toList

/-- The section name `'Tasks'`. -/
def nameTasks : PyStr := "Tasks".toList

/-- The section-detection cascade of lines 284–292, applied to one line:
`some sec` when the line is consumed as a section header.  Each test is
`name in cleaned_line and ('â”€' in line or name in cleaned_line)`,
verbatim from the source (the second disjunct makes the border test
redundant). -/
def headerResult? (line : PyStr) : Option SectionName :=
  let cleaned_line := cleanLine line
  if pyIn nameStatus cleaned_line &&
      (pyIn borderH line || pyIn nameStatus cleaned_line) then
    some .status
  else if pyIn nameWallet cleaned_line &&
      (pyIn borderH line || pyIn nameWallet cleaned_line) then
    some .wallet
  else if pyIn nameTasks cleaned_line &&
      (pyIn borderH line || pyIn nameTasks cleaned_line) then
    some .tasks
  else
    none

/-- The separator-line test of line 295. -/
def isSeparatorLine (line : PyStr) : Bool :=
  separatorChars.any (fun c => pyIn c line)

/-- Lines 299–307: one line of the `status` section. -/
def parseStatusLine (sv : ServiceData) (cleaned_line : PyStr) : ServiceData :=
  if pyIn "Service".toList cleaned_line && pyIn "running".toList cleaned_line then
    { sv with status := some "running".toList }
  else if pyIn "Version".toList cleaned_line && cleaned_line.any pyIsDigit then
    { sv with version := some (pyStrip (lastD [] (pySplit "Version".toList cleaned_line))) }
  else if pyIn "Node Name".toList cleaned_line then
    { sv with node_name := some (pyStrip (lastD [] (pySplit "Node Name".toList cleaned_line))) }
  else if pyIn "Subnet".toList cleaned_line then
    { sv with subnet := some (pyStrip (lastD [] (pySplit "Subnet".toList cleaned_line))) }
  else sv

/-- Lines 310–327: one line of the `wallet` section.  A `none` from the
numeric parser models the swallowed `ValueError`; a missing token models
the swallowed `IndexError`. -/
def parseWalletLine (w : WalletData) (cleaned_line : PyStr) : WalletData :=
  if pyStartsWith "0x".toList cleaned_line && cleaned_line.length > 10 then
    { w with address := some cleaned_line }
  else if pyIn "amount (total)".toList cleaned_line then
    let amount_part := pyStrip (lastD [] (pySplit "amount (total)".toList cleaned_line))
    if pyIn "GLM".toList amount_part then
      match pySplitWs amount_part with
      | [] => w
      | tok :: _ =>
        match pyFloat? tok with
        | some amount => { w with total_glm := some amount }
        | none => w
    else w
  else if pyStartsWith "pending".toList cleaned_line && pyIn "GLM".toList cleaned_line then
    match pySplitWs cleaned_line with
    | _ :: tok :: _ =>
      match pyFloat? tok with
      | some amount => { w with pending_glm := some amount }
      | none => w
    | _ => w
  else w

/-- Lines 330–348: one line of the `tasks` section. -/
def parseTasksLine (tk : TasksData) (cleaned_line : PyStr) : TasksData :=
  if pyIn "last 1h processed".toList cleaned_line then
    match pyInt? (pyStrip (lastD [] (pySplit "last 1h processed".toList cleaned_line))) with
    | some count => { tk with last_hour_processed := some count }
    | none => tk
  else if pyIn "last 1h in progress".toList cleaned_line then
    match pyInt? (pyStrip (lastD [] (pySplit "last 1h in progress".toList cleaned_line))) with
    | some count => { tk with in_progress := some count }
    | none => tk
  else if pyIn "total processed".toList cleaned_line then
    match pyInt? (pyStrip (lastD [] (pySplit "total processed".toList cleaned_line))) with
    | some count => { tk with total_processed := some count }
    | none => tk
  else tk

/-- One iteration of the `for line in lines` loop (lines 278–348):
skip blank lines, then section detection, then the separator skip, then
the per-section field rules. -/
def processLine (acc : ParseAcc) (line : PyStr) : ParseAcc :=
  let cleaned_line := cleanLine line
  if cleaned_line = [] then acc
  else
    match headerResult? line with
    | some sec => { acc with current_section := some sec }
    | none =>
      if isSeparatorLine line then acc
      else
        match acc.current_section with
        | some .status => { acc with service := parseStatusLine acc.service cleaned_line }
        | some .wallet => { acc with wallet := parseWalletLine acc.wallet cleaned_line }
        | some .tasks => { acc with tasks := parseTasksLine acc.tasks cleaned_line }
        | none => acc

/-- The initial loop state: `current_section = None` and the three empty
sub-dicts. -/
def initAcc : ParseAcc :=
  ⟨none, ⟨none, none, none, none⟩, ⟨none, none, none⟩, ⟨none, none, none⟩⟩

/-- `parse_status_data(status_output)` (lines 255–350).  The wall-clock
reading `datetime.now().isoformat()` is passed in as `now`; `none`
models a `None` argument.  `if not status_output: return {}` covers both
`None` and the empty string. -/
def parse_status_data (now : String) (status_output : Option String) : StatusDict :=
  match status_output with
  | none => .empty
  | some s =>
    if s = "" then .empty
    else
      let lines := splitOnChar '\n' (pyStrip s.toList)
      let acc := lines.foldl processLine initAcc
      .snap now acc.service acc.wallet acc.tasks

/-! ### Change detection (`bot.py`, `detect_changes`, lines 353–394) -/

/-- The `changes` dict built by `detect_changes`.  Note that the source's
dict has exactly these four keys: the per-flag job counts are *not* part
of it (they are recomputed later, inside `monitoring_loop`). -/
structure Changes where
  new_jobs : Bool
  completed_jobs : Bool
  payment_received : Bool
  wallet_balance_change : ℚ
deriving DecidableEq

/-- `detect_changes(current_data, previous_data)` (lines 353–394).
`if not previous_data` is dict truthiness: true exactly for the bare
`{}` (or `None`), modelled by `StatusDict.empty`. -/
def detect_changes (current_data previous_data : StatusDict) : Changes :=
  let changes : Changes :=
    { new_jobs := false, completed_jobs := false, payment_received := false,
      wallet_balance_change := 0 }
  if previous_data = .empty then changes
  else
    let current_in_progress := current_data.tasksInProgress
    let previous_in_progress := previous_data.tasksInProgress
    let changes :=
      if current_in_progress > previous_in_progress then
        { changes with new_jobs := true }
      else changes
    let current_total := current_data.tasksTotalProcessed
    let previous_total := previous_data.tasksTotalProcessed
    let changes :=
      if current_total > previous_total then
        { changes with completed_jobs := true }
      else changes
    let current_balance := current_data.walletTotalGlm
    let previous_balance := previous_data.walletTotalGlm
    let balance_change := current_balance - previous_balance
    let changes :=
      if balance_change > 0.001 then
        { changes with payment_received := true,
                       wallet_balance_change := balance_change }
      else changes
    changes

/-- `any(changes.values())` on the `changes` dict (line 789): the three
flags plus the truthiness of the float `wallet_balance_change`. -/
def anyChanges (c : Changes) : Bool :=
  c.new_jobs || c.completed_jobs || c.payment_received ||
    decide (c.wallet_balance_change ≠ 0)

/-! ### Render Network platform (`platforms/render_network.py`) -/

/-- The dict built by `check_render_status` (lines 58–72).  The nested
`jobs` and `earnings` sub-dicts are flattened into fields. -/
structure RenderRaw where
  timestamp : String
  worker_status : PyStr
  worker_process : Option PyStr
  jobs_active : Int
  jobs_completed : Int
  earnings_total : ℚ
  earnings_pending : ℚ
deriving DecidableEq

/-- `check_render_status()` (lines 48–81).  The probe of the worker
process (`check_render_worker_running` / `find_render_worker_process`)
is an OS effect, passed in as `is_running` / `process`; the wall clock
as `now`.  The `except` branch is unreachable in this model because the
`try` body cannot raise.  Returns the `(success, data, error)` tuple. -/
def check_render_status (is_running : Bool) (process : Option PyStr)
    (now : String) : Bool × Option RenderRaw × Option PyStr :=
  let data : RenderRaw :=
    { timestamp := now
      worker_status := if is_running then "running".toList else "stopped".toList
      worker_process := process
      jobs_active := 0
      jobs_completed := 0
      earnings_total := 0
      earnings_pending := 0 }
  if !is_running then
    (true, some data, some "Render worker is not running".toList)
  else
    (true, some data, none)

/-- The dict built by `parse_render_status` (lines 97–105). -/
structure RenderParsed where
  worker_status : PyStr
  is_running : Bool
  active_jobs : Int
  completed_jobs : Int
  total_earnings : ℚ
  pending_earnings : ℚ
  timestamp : String
deriving DecidableEq

/-- `parse_render_status(data)` (lines 84–107) on a populated dict (the
`if not data: return {}` branch is unreachable from `check_render_status`,
which always returns a populated dict on success). -/
def parse_render_status (data : RenderRaw) : RenderParsed :=
  { worker_status := data.worker_status
    is_running := data.worker_status = "running".toList
    active_jobs := data.jobs_active
    completed_jobs := data.jobs_completed
    total_earnings := data.earnings_total
    pending_earnings := data.earnings_pending
    timestamp := data.timestamp }

/-- The `previous_render_state` read by the monitoring loop when the
persisted file held no `render` key: every `.get` then returns its
default (the unread fields are given the parse-time defaults). -/
def emptyRenderParsed : RenderParsed :=
  { worker_status := "unknown".toList, is_running := false, active_jobs := 0,
    completed_jobs := 0, total_earnings := 0, pending_earnings := 0,
    timestamp := "" }

/-! ### AI-training platform (`platforms/ai_training.py`) -/

/-- The dict built by `check_ai_training_status` (lines 61–85), with the
nested sub-dicts flattened. -/
structure AiRaw where
  timestamp : String
  worker_status : PyStr
  worker_process : Option PyStr
  together_enabled : Bool
  akash_enabled : Bool
  jobs_active : Int
  jobs_completed : Int
  earnings_total : ℚ
  earnings_pending : ℚ
deriving DecidableEq

/-- `check_ai_training_status()` (lines 51–94).  The process probe and
the two environment flags (`TOGETHER_AI_ENABLED`, `AKASH_NODE_ENABLED`)
are passed in; the `except` branch is unreachable in this model. -/
def check_ai_training_status (is_running : Bool) (process : Option PyStr)
    (together_enabled akash_enabled : Bool) (now : String) :
    Bool × Option AiRaw × Option PyStr :=
  let data : AiRaw :=
    { timestamp := now
      worker_status := if is_running then "running".toList else "stopped".toList
      worker_process := process
      together_enabled := together_enabled
      akash_enabled := akash_enabled
      jobs_active := 0
      jobs_completed := 0
      earnings_total := 0
      earnings_pending := 0 }
  if !is_running then
    (true, some data, some "AI training worker is not running".toList)
  else
    (true, some data, none)

/-- The dict built by `parse_ai_training_status` (lines 120–131). -/
structure AiParsed where
  worker_status : PyStr
  is_running : Bool
  active_platforms : List PyStr
  together_ai_enabled : Bool
  akash_enabled : Bool
  active_jobs : Int
  completed_jobs : Int
  total_earnings : ℚ
  pending_earnings : ℚ
  timestamp : String
deriving DecidableEq

/-- `parse_ai_training_status(data)` (lines 97–133) on a populated dict. -/
def parse_ai_training_status (data : AiRaw) : AiParsed :=
  { worker_status := data.worker_status
    is_running := data.worker_status = "running".toList
    active_platforms :=
      (if data.together_enabled then ["Together.ai".toList] else []) ++
        (if data.akash_enabled then ["Akash Network".toList] else [])
    together_ai_enabled := data.together_enabled
    akash_enabled := data.akash_enabled
    active_jobs := data.jobs_active
    completed_jobs := data.jobs_completed
    total_earnings := data.earnings_total
    pending_earnings := data.earnings_pending
    timestamp := data.timestamp }

/-- The `previous_ai_state` seen by the loop when the persisted file held
no `ai_training` key (all `.get` defaults). -/
def emptyAiParsed : AiParsed :=
  { worker_status := "unknown".toList, is_running := false,
    active_platforms := [], together_ai_enabled := false,
    akash_enabled := false, active_jobs := 0, completed_jobs := 0,
    total_earnings := 0, pending_earnings := 0, timestamp := "" }

/-! ### Subscriber registry (`bot.py`, lines 231–252)

`registered_users` is a Python `set` of chat ids, modelled as a
`Finset ℤ`.  `register_user` / `unregister_user` mutate the global set
and then persist it with `save_registered_users()`, a best-effort file
write that is logged and swallowed on failure; the model captures the
set transformation, which is the registry's observable state. -/

/-- `register_user(chat_id)`: `registered_users.add(chat_id)`. -/
def register_user (chat_id : ℤ) (registered_users : Finset ℤ) : Finset ℤ :=
  insert chat_id registered_users

/-- `unregister_user(chat_id)`: `registered_users.discard(chat_id)`
(`discard` never raises on a missing element, unlike `remove`). -/
def unregister_user (chat_id : ℤ) (registered_users : Finset ℤ) : Finset ℤ :=
  registered_users.erase chat_id

/-! ### Persisted state (`bot.py`, lines 169–197 and 766–898) -/

/-- The persisted-state document `bot_state.json`: one snapshot per
platform key (`golem`, `render`, `ai_training`).  The bare `{}` state is
`⟨.empty, emptyRenderParsed, emptyAiParsed⟩`: every `.get` on it returns
the defaults these values carry. -/
structure PersistedState where
  golem : StatusDict
  render : RenderParsed
  ai_training : AiParsed
deriving DecidableEq

/-- The empty state `{}`, as read through the loop's `.get` defaults. -/
def emptyPersistedState : PersistedState :=
  ⟨.empty, emptyRenderParsed, emptyAiParsed⟩

/-- What the attempt to read and JSON-decode `bot_state.json` yields:
the file may be missing, present but unreadable or not valid JSON
(any `Exception` from `open`/`json.load`), or valid. -/
inductive StateFileRead where
  | missing
  | corrupt
  | valid (st : PersistedState)

/-- `load_previous_state()` (lines 169–183): returns the parsed state
when the file exists and decodes, and the empty dict `{}` both when the
file is missing and when any exception is raised (the `except` clause
logs and falls through to `return {}`). -/
def load_previous_state : StateFileRead → PersistedState
  | .missing => emptyPersistedState
  | .corrupt => emptyPersistedState
  | .valid st => st

/-! ### Monitoring loop (`bot.py`, `monitoring_loop`, lines 758–904)

One iteration of the `while True` loop is modelled as a function of the
in-memory previous state and of the results of the three external
status checks (injected capabilities).  Notification *text* is
abstracted to a constructor per message shape, carrying the platform
and the numeric payloads interpolated into the f-string; delivery to
each registered chat id (lines 888–893) and the best-effort
`save_current_state` write are transport/IO effects outside the model. -/

/-- One notification message, by platform, kind and numeric payload. -/
inductive Notification where
  | golemNewJobs (new_jobs_count : Int) (current_jobs : Int)
  | golemCompleted (completed_count : Int) (current_total : Int)
  | golemPayment (balance_change : ℚ) (current_balance : ℚ)
  | renderEarnings (earnings_change : ℚ) (curr_earnings : ℚ)
  | renderNewJob (new_jobs : Int) (curr_jobs : Int)
  | aiEarnings (earnings_change : ℚ) (curr_earnings : ℚ)
  | aiNewJob (new_jobs : Int) (curr_jobs : Int)
deriving DecidableEq

/-- The monitored platforms. -/
inductive Platform where
  | golem
  | render
  | aiTraining
deriving DecidableEq

/-- Which platform a notification message reports on. -/
def Notification.platformOf : Notification → Platform
  | .golemNewJobs _ _ => .golem
  | .golemCompleted _ _ => .golem
  | .golemPayment _ _ => .golem
  | .renderEarnings _ _ => .render
  | .renderNewJob _ _ => .render
  | .aiEarnings _ _ => .aiTraining
  | .aiNewJob _ _ => .aiTraining

/-- Lines 790–817: the GolemSP notification messages, built when
`any(changes.values()) and registered_users` held.  The counts are
recomputed here from the two snapshots, exactly as in the source. -/
def golemMsgs (current_data golem_previous : StatusDict) (changes : Changes) :
    List Notification :=
  (if changes.new_jobs then
      [.golemNewJobs (current_data.tasksInProgress - golem_previous.tasksInProgress)
        current_data.tasksInProgress]
    else []) ++
  (if changes.completed_jobs then
      [.golemCompleted
        (current_data.tasksTotalProcessed - golem_previous.tasksTotalProcessed)
        current_data.tasksTotalProcessed]
    else []) ++
  (if changes.payment_received then
      [.golemPayment changes.wallet_balance_change current_data.walletTotalGlm]
    else [])

/-- Lines 830–850: the Render Network branch's messages. -/
def renderMsgs (prev curr : RenderParsed) (has_users : Bool) :
    List Notification :=
  (if decide (curr.total_earnings > prev.total_earnings) && has_users then
      [.renderEarnings (curr.total_earnings - prev.total_earnings)
        curr.total_earnings]
    else []) ++
  (if decide (curr.active_jobs > prev.active_jobs) && has_users then
      [.renderNewJob (curr.active_jobs - prev.active_jobs) curr.active_jobs]
    else [])

/-- Lines 862–882: the AI-training branch's messages. -/
def aiMsgs (prev curr : AiParsed) (has_users : Bool) : List Notification :=
  (if decide (curr.total_earnings > prev.total_earnings) && has_users then
      [.aiEarnings (curr.total_earnings - prev.total_earnings)
        curr.total_earnings]
    else []) ++
  (if decide (curr.active_jobs > prev.active_jobs) && has_users then
      [.aiNewJob (curr.active_jobs - prev.active_jobs) curr.active_jobs]
    else [])

/-- The external inputs of one loop iteration: the result of each status
check (`some` on success, `none` on reported failure), the platform
enable flags, the clock, and whether `registered_users` is non-empty. -/
structure CycleInput where
  golem_output : Option String
  render_enabled : Bool
  render_check : Option RenderRaw
  ai_enabled : Bool
  ai_check : Option AiRaw
  now : String
  has_users : Bool

/-- One iteration of `monitoring_loop`'s `while True` body
(lines 778–898): each platform's check-parse-diff-notify-store steps,
with a failed check leaving that platform's previous snapshot untouched
and contributing no messages.  Returns the state passed to
`save_current_state` and the accumulated `notification_messages`. -/
def monitoring_cycle (previous_state : PersistedState) (inp : CycleInput) :
    PersistedState × List Notification :=
  let golemStep :=
    match inp.golem_output with
    | some output =>
      let current_data := parse_status_data inp.now (some output)
      let changes := detect_changes current_data previous_state.golem
      let msgs :=
        if anyChanges changes && inp.has_users then
          golemMsgs current_data previous_state.golem changes
        else []
      (msgs, current_data)
    | none => ([], previous_state.golem)
  let renderStep :=
    if inp.render_enabled then
      match inp.render_check with
      | some data =>
        let current := parse_render_status data
        (renderMsgs previous_state.render current inp.has_users, current)
      | none => ([], previous_state.render)
    else ([], previous_state.render)
  let aiStep :=
    if inp.ai_enabled then
      match inp.ai_check with
      | some data =>
        let current := parse_ai_training_status data
        (aiMsgs previous_state.ai_training current inp.has_users, current)
      | none => ([], previous_state.ai_training)
    else ([], previous_state.ai_training)
  (⟨golemStep.2, renderStep.2, aiStep.2⟩,
    golemStep.1 ++ renderStep.1 ++ aiStep.1)

/-! ### Fixtures shared by concrete witnesses -/

/-- A snapshot whose wallet holds the given total balance. -/
def snapWith (bal : ℚ) : StatusDict :=
  .snap "t" ⟨none, none, none, none⟩ ⟨none, some bal, none⟩ ⟨none, none, none⟩

/-- A snapshot with the given task counters. -/
def snapTasks (inProg total : Int) : StatusDict :=
  .snap "t" ⟨none, none, none, none⟩ ⟨none, none, none⟩
    ⟨none, some inProg, some total⟩

/-- A Render check result for a stopped worker. -/
def renderRawFixture : RenderRaw :=
  ⟨"t", "stopped".toList, none, 0, 0, 0, 0⟩

/-! ### Claim theorems -/

/-- C1: `detect_changes(X, previous)` with an absent/empty previous
snapshot (the falsy `{}` or `None`) is the zero ChangeSet — all flags
false and the wallet-balance magnitude zero — for every current
snapshot X, so the first poll after a cold start never fires
notifications. -/
theorem detect_changes_no_prior_state (current_data : StatusDict) :
    detect_changes current_data .empty =
      { new_jobs := false, completed_jobs := false, payment_received := false,
        wallet_balance_change := 0 } := rfl

/-- Characterization of the `payment_received` flag and the
`wallet_balance_change` magnitude for a truthy previous snapshot. -/
theorem detect_changes_payment_char (c p : StatusDict) (hp : p ≠ .empty) :
    (detect_changes c p).payment_received =
      decide (c.walletTotalGlm - p.walletTotalGlm > 0.001) ∧
    (detect_changes c p).wallet_balance_change =
      (if c.walletTotalGlm - p.walletTotalGlm > 0.001 then
        c.walletTotalGlm - p.walletTotalGlm else 0) := by
  simp only [detect_changes, if_neg hp]
  split <;> split <;> split <;> simp_all

/-- Characterization of the two job flags for a truthy previous
snapshot. -/
theorem detect_changes_flags_char (c p : StatusDict) (hp : p ≠ .empty) :
    (detect_changes c p).new_jobs =
      decide (c.tasksInProgress > p.tasksInProgress) ∧
    (detect_changes c p).completed_jobs =
      decide (c.tasksTotalProcessed > p.tasksTotalProcessed) := by
  simp only [detect_changes, if_neg hp]
  split <;> split <;> split <;> simp_all

/-- C2: for a present (truthy) previous snapshot, `payment_received` is
true iff the current wallet total minus the previous wallet total
strictly exceeds epsilon = 0.001; a delta of exactly 0.0009 does not
trigger it, a delta of 0.0011 does, and when the balance decreased the
flag is false and the reported `wallet_balance_change` is not
positive. -/
theorem detect_changes_payment_epsilon (current_data previous_data : StatusDict)
    (hp : previous_data ≠ .empty) :
    ((detect_changes current_data previous_data).payment_received = true ↔
      current_data.walletTotalGlm - previous_data.walletTotalGlm > 0.001) ∧
    (current_data.walletTotalGlm - previous_data.walletTotalGlm = 0.0009 →
      (detect_changes current_data previous_data).payment_received = false) ∧
    (current_data.walletTotalGlm - previous_data.walletTotalGlm = 0.0011 →
      (detect_changes current_data previous_data).payment_received = true) ∧
    (current_data.walletTotalGlm < previous_data.walletTotalGlm →
      (detect_changes current_data previous_data).payment_received = false ∧
      ¬(0 < (detect_changes current_data previous_data).wallet_balance_change)) := by
  obtain ⟨h1, h2⟩ := detect_changes_payment_char current_data previous_data hp
  refine ⟨?_, ?_, ?_, ?_⟩
  · rw [h1]; simp
  · intro he; rw [h1, he]
    simp only [decide_eq_false_iff_not]
    norm_num
  · intro he; rw [h1, he]
    simp only [decide_eq_true_eq]
    norm_num
  · intro hlt
    have hno : ¬(current_data.walletTotalGlm - previous_data.walletTotalGlm > 0.001) := by
      intro habs; nlinarith
    constructor
    · rw [h1]; simpa using hno
    · rw [h2, if_neg hno]; norm_num

/-- C2 witness: a balance delta of 0.0011 fires `payment_received`. -/
theorem detect_changes_payment_epsilon_w :
    (detect_changes (snapWith 0.0011) (snapWith 0)).payment_received = true :=
  (detect_changes_payment_epsilon (snapWith 0.0011) (snapWith 0)
    (by decide)).2.2.1 (by norm_num [snapWith, StatusDict.walletTotalGlm])

/-- C3 counterexample: parsing the empty string (or `None`) returns the
bare empty dict, which carries none of the three sub-mappings — not a
snapshot with empty sub-mappings as claimed. -/
theorem parse_empty_input_is_bare_dict :
    parse_status_data "t" (some "") = .empty ∧
    parse_status_data "t" none = .empty ∧
    (parse_status_data "t" (some "")).hasSubMaps = false := by
  refine ⟨by decide, rfl, by decide⟩

/-- C3 (amended): `parse_status_data` is total — in this model every
malformed line and numeric-coercion failure is absorbed into the result
rather than an exception — and on `None` or the empty string it returns
the bare empty dict `{}`, while on any non-empty text it returns a
snapshot carrying all three sub-mappings. -/
theorem parse_status_data_total (now s : String) (hs : s ≠ "") :
    parse_status_data now none = .empty ∧
    parse_status_data now (some "") = .empty ∧
    ∃ sv w tk, parse_status_data now (some s) = .snap now sv w tk := by
  refine ⟨rfl, by simp [parse_status_data], ?_⟩
  simp only [parse_status_data, if_neg hs]
  exact ⟨_, _, _, rfl⟩

/-- C3 witness: a one-character input parses to a populated snapshot. -/
theorem parse_status_data_total_w :
    ∃ sv w tk, parse_status_data "t" (some "x") = .snap "t" sv w tk :=
  (parse_status_data_total "t" "x" (by decide)).2.2

/-- C6 counterexample: the snapshot's `timestamp` field is read from the
clock, so parsing the same text at two different instants yields
different snapshots — the result is not a function of the text alone. -/
theorem parse_depends_on_clock :
    parse_status_data "t1" (some "x") ≠ parse_status_data "t2" (some "x") := by
  decide

/-- C6 (amended): apart from the clock-sourced `timestamp` field, the
parse result is a deterministic function of the text alone: the
service/wallet/tasks payload of two parses of the same text is
identical, and on non-empty text the `timestamp` field is exactly the
clock reading passed in. -/
theorem parse_deterministic_up_to_timestamp (t1 t2 : String)
    (inp : Option String) :
    (parse_status_data t1 inp).fields = (parse_status_data t2 inp).fields ∧
    (∀ s : String, s ≠ "" →
      (parse_status_data t1 (some s)).timestamp? = some t1) := by
  constructor
  · match inp with
    | none => rfl
    | some s =>
      by_cases h : s = ""
      · subst h; rfl
      · simp only [parse_status_data, if_neg h]; rfl
  · intro s hs
    simp only [parse_status_data, if_neg hs]; rfl

/-- C6 witness: the payload of two parses of the fixture agrees, shown on
the timestamp conclusion at a concrete input. -/
theorem parse_deterministic_up_to_timestamp_w :
    (parse_status_data "t1" (some "x")).timestamp? = some "t1" :=
  (parse_deterministic_up_to_timestamp "t1" "t2" (some "x")).2 "x" (by decide)

/-- C8: `load_previous_state` never throws: a missing state file and a
present-but-unreadable or invalid-JSON file both degrade to the empty
state `{}`, and a valid file loads as-is. -/
theorem load_previous_state_never_throws :
    load_previous_state .missing = emptyPersistedState ∧
    load_previous_state .corrupt = emptyPersistedState ∧
    ∀ st, load_previous_state (.valid st) = st :=
  ⟨rfl, rfl, fun _ => rfl⟩

/-- C10: the subscriber registry is idempotent and total at its public
interface: registering an already-registered id and unregistering an
unknown id both leave the set unchanged (and `discard` never raises),
registering makes the id a member and unregistering removes it. -/
theorem subscriber_registry_ops (s : Finset ℤ) (chat_id : ℤ) :
    (chat_id ∈ s → register_user chat_id s = s) ∧
    (chat_id ∉ s → unregister_user chat_id s = s) ∧
    chat_id ∈ register_user chat_id s ∧
    chat_id ∉ unregister_user chat_id s :=
  ⟨fun h => Finset.insert_eq_self.mpr h,
   fun h => Finset.erase_eq_self.mpr h,
   Finset.mem_insert_self _ _,
   Finset.not_mem_erase _ _⟩

/-- C10 witness: registering the already-registered id 1 over the set
{1, 2} leaves it unchanged, and 1 is a member afterwards. -/
theorem subscriber_registry_ops_w :
    register_user 1 {1, 2} = ({1, 2} : Finset ℤ) ∧
    (1 : ℤ) ∈ register_user 1 {1, 2} := by
  have h := subscriber_registry_ops ({1, 2} : Finset ℤ) 1
  exact ⟨h.1 (by decide), h.2.2.1⟩

/-- C4 counterexample: the `changes` dict returned by `detect_changes`
does not carry the job-count magnitudes — two snapshot pairs whose
`in_progress` differences are 1 and 2 produce *equal* ChangeSets, so no
`new_job_count` field of the ChangeSet can equal the exact difference. -/
theorem changeset_carries_no_job_counts :
    detect_changes (snapTasks 1 0) (snapTasks 0 0) =
      detect_changes (snapTasks 2 0) (snapTasks 0 0) ∧
    (snapTasks 1 0).tasksInProgress - (snapTasks 0 0).tasksInProgress ≠
      (snapTasks 2 0).tasksInProgress - (snapTasks 0 0).tasksInProgress ∧
    (snapTasks 0 0).tasksInProgress ≤ (snapTasks 1 0).tasksInProgress ∧
    (snapTasks 0 0).tasksInProgress ≤ (snapTasks 2 0).tasksInProgress ∧
    (snapTasks 0 0).tasksTotalProcessed ≤ (snapTasks 1 0).tasksTotalProcessed ∧
    (snapTasks 0 0).tasksTotalProcessed ≤ (snapTasks 2 0).tasksTotalProcessed := by
  refine ⟨rfl, by decide, by decide, by decide, by decide, by decide⟩

/-- C4 (amended): for snapshots A (truthy), B with B's task counters at
least A's, `completed_jobs` is true iff B's total strictly exceeds A's
(and `new_jobs` likewise for `in_progress`); the exact non-negative
differences are not fields of the ChangeSet but are recomputed by the
monitoring loop, whose notification messages carry them. -/
theorem detect_changes_diff_monotonicity (A B : StatusDict) (hA : A ≠ .empty)
    (h1 : A.tasksInProgress ≤ B.tasksInProgress)
    (h2 : A.tasksTotalProcessed ≤ B.tasksTotalProcessed) :
    ((detect_changes B A).completed_jobs = true ↔
      A.tasksTotalProcessed < B.tasksTotalProcessed) ∧
    ((detect_changes B A).new_jobs = true ↔
      A.tasksInProgress < B.tasksInProgress) ∧
    0 ≤ B.tasksInProgress - A.tasksInProgress ∧
    0 ≤ B.tasksTotalProcessed - A.tasksTotalProcessed ∧
    ((detect_changes B A).new_jobs = true →
      Notification.golemNewJobs (B.tasksInProgress - A.tasksInProgress)
          B.tasksInProgress ∈ golemMsgs B A (detect_changes B A)) ∧
    ((detect_changes B A).completed_jobs = true →
      Notification.golemCompleted
          (B.tasksTotalProcessed - A.tasksTotalProcessed)
          B.tasksTotalProcessed ∈ golemMsgs B A (detect_changes B A)) := by
  obtain ⟨hn, hc⟩ := detect_changes_flags_char B A hA
  refine ⟨by rw [hc]; simp, by rw [hn]; simp, by omega, by omega, ?_, ?_⟩
  · intro hflag
    simp [golemMsgs, hflag]
  · intro hflag
    simp [golemMsgs, hflag]

/-- C4 witness: the iff at a concrete pair with counters 0→1, 0→2. -/
theorem detect_changes_diff_monotonicity_w :
    (detect_changes (snapTasks 1 2) (snapTasks 0 0)).new_jobs = true :=
  ((detect_changes_diff_monotonicity (snapTasks 0 0) (snapTasks 1 2)
    (by decide) (by decide) (by decide)).2.1).mpr (by decide)

/-- If the cleaned line is empty, no section header is detected. -/
theorem headerResult_of_blank (line : PyStr) (hc : cleanLine line = []) :
    headerResult? line = none := by
  simp only [headerResult?, hc]
  rfl

/-- C7: a line is consumed as a section header exactly when its cleaned
form contains one of the known section names (the border-character
disjunct of the source is redundant, so containment with or without a
border is what decides it, "Status" tried before "Wallet" before
"Tasks"); a header line only sets `current_section` and contributes no
field; and a non-header line seen before the first header leaves the
parse state untouched. -/
theorem section_header_detection (acc : ParseAcc) (line : PyStr)
    (sec : SectionName) :
    ((headerResult? line).isSome =
      (pyIn nameStatus (cleanLine line) ||
        pyIn nameWallet (cleanLine line) ||
        pyIn nameTasks (cleanLine line))) ∧
    (headerResult? line = some sec →
      processLine acc line = { acc with current_section := some sec }) ∧
    (acc.current_section = none → headerResult? line = none →
      processLine acc line = acc) := by
  refine ⟨?_, ?_, ?_⟩
  · cases hS : pyIn nameStatus (cleanLine line) <;>
      cases hW : pyIn nameWallet (cleanLine line) <;>
        cases hT : pyIn nameTasks (cleanLine line) <;>
          simp [headerResult?, hS, hW, hT]
  · intro h
    by_cases hc : cleanLine line = []
    · rw [headerResult_of_blank line hc] at h; exact absurd h (by simp)
    · simp only [processLine, if_neg hc, h]
  · intro h0 h1
    by_cases hc : cleanLine line = []
    · simp only [processLine, if_pos hc]
    · simp only [processLine, if_neg hc, h1, h0]
      split <;> rfl

/-- C7 witness: the line "Wallet" is consumed as a wallet header from the
initial state, setting only the current section. -/
theorem section_header_detection_w :
    processLine initAcc "  Wallet".toList =
      { initAcc with current_section := some .wallet } :=
  (section_header_detection initAcc "  Wallet".toList .wallet).2.1 (by decide)

/-- Every message the Render branch emits reports on the Render
platform. -/
theorem renderMsgs_platform (prev curr : RenderParsed) (u : Bool) :
    ∀ m ∈ renderMsgs prev curr u, m.platformOf = .render := by
  intro m hm
  unfold renderMsgs at hm
  rcases List.mem_append.mp hm with h | h <;>
    (split at h <;> simp_all [Notification.platformOf])

/-- Every message the GolemSP branch emits reports on the Golem
platform. -/
theorem golemMsgs_platform (c p : StatusDict) (ch : Changes) :
    ∀ m ∈ golemMsgs c p ch, m.platformOf = .golem := by
  intro m hm
  unfold golemMsgs at hm
  rcases List.mem_append.mp hm with h | h
  · rcases List.mem_append.mp h with h | h <;>
      (split at h <;> simp_all [Notification.platformOf])
  · split at h <;> simp_all [Notification.platformOf]

/-- C5: two platforms polled in one cycle, one failing and one
succeeding.  When the GolemSP check fails while the Render check
succeeds (AI training disabled), the stored GolemSP snapshot is left
untouched, no GolemSP message is produced, and the Render snapshot and
notifications proceed normally; symmetrically, when the Render check
fails while GolemSP succeeds, the stored Render snapshot is untouched,
no Render message is produced, and GolemSP's snapshot and notifications
proceed normally. -/
theorem failed_poll_leaves_snapshot_untouched (st : PersistedState)
    (raw : RenderRaw) (out : String) (now : String) (u : Bool) :
    (monitoring_cycle st ⟨none, true, some raw, false, none, now, u⟩).1.golem
        = st.golem ∧
    (monitoring_cycle st ⟨none, true, some raw, false, none, now, u⟩).1.ai_training
        = st.ai_training ∧
    (monitoring_cycle st ⟨none, true, some raw, false, none, now, u⟩).1.render
        = parse_render_status raw ∧
    (monitoring_cycle st ⟨none, true, some raw, false, none, now, u⟩).2
        = renderMsgs st.render (parse_render_status raw) u ∧
    (∀ m ∈ (monitoring_cycle st ⟨none, true, some raw, false, none, now, u⟩).2,
      m.platformOf = .render) ∧
    (monitoring_cycle st ⟨some out, true, none, false, none, now, u⟩).1.render
        = st.render ∧
    (monitoring_cycle st ⟨some out, true, none, false, none, now, u⟩).1.golem
        = parse_status_data now (some out) ∧
    (monitoring_cycle st ⟨some out, true, none, false, none, now, u⟩).2
        = (if anyChanges (detect_changes (parse_status_data now (some out)) st.golem)
              && u then
            golemMsgs (parse_status_data now (some out)) st.golem
              (detect_changes (parse_status_data now (some out)) st.golem)
          else []) ∧
    (∀ m ∈ (monitoring_cycle st ⟨some out, true, none, false, none, now, u⟩).2,
      m.platformOf = .golem) := by
  have hmsgs :
      (monitoring_cycle st ⟨none, true, some raw, false, none, now, u⟩).2
        = renderMsgs st.render (parse_render_status raw) u := by
    simp [monitoring_cycle]
  have hmsgs2 :
      (monitoring_cycle st ⟨some out, true, none, false, none, now, u⟩).2
        = (if anyChanges (detect_changes (parse_status_data now (some out)) st.golem)
              && u then
            golemMsgs (parse_status_data now (some out)) st.golem
              (detect_changes (parse_status_data now (some out)) st.golem)
          else []) := by
    simp only [monitoring_cycle, List.append_nil]
    split <;> simp
  refine ⟨rfl, rfl, rfl, hmsgs, ?_, rfl, rfl, hmsgs2, ?_⟩
  · intro m hm
    rw [hmsgs] at hm
    exact renderMsgs_platform st.render (parse_render_status raw) u m hm
  · intro m hm
    rw [hmsgs2] at hm
    split at hm
    · exact golemMsgs_platform _ _ _ m hm
    · exact absurd hm (List.not_mem_nil m)

/-- C5 witness: the frame condition at a concrete state and check
result. -/
theorem failed_poll_leaves_snapshot_untouched_w :
    (monitoring_cycle emptyPersistedState
      ⟨none, true, some renderRawFixture, false, none, "t", true⟩).1.golem
        = emptyPersistedState.golem :=
  (failed_poll_leaves_snapshot_untouched emptyPersistedState renderRawFixture
    "out" "t" true).1

/-- A hand-edited previous Render state with a negative earnings value. -/
def negRenderPrev : RenderParsed := { emptyRenderParsed with total_earnings := -1 }

/-- A hand-edited previous Render state with a positive earnings value. -/
def posRenderPrev : RenderParsed := { emptyRenderParsed with total_earnings := 5 }

/-- The parse of a freshly polled Render snapshot (stopped worker). -/
def freshRender : RenderParsed := parse_render_status renderRawFixture

/-- C9 counterexample: because a fresh poll always reports zero
earnings, the Render "earnings update" notification fires against a
hand-edited persisted state exactly when its stored value is negative —
it fires with stored earnings −1, and does *not* fire with the positive
stored value 5, contrary to the claim's parenthetical. -/
theorem render_notification_needs_negative_state :
    renderMsgs negRenderPrev freshRender true ≠ [] ∧
    negRenderPrev.total_earnings < 0 ∧
    renderMsgs posRenderPrev freshRender true = [] := by
  refine ⟨?_, by norm_num [negRenderPrev, emptyRenderParsed], ?_⟩ <;>
    norm_num [renderMsgs, negRenderPrev, posRenderPrev, freshRender,
      renderRawFixture, emptyRenderParsed, parse_render_status]

/-- C9 (amended): `check_render_status` and `check_ai_training_status`
always return data with hardcoded zero job and earnings counters,
regardless of worker state; consequently the monitoring loop's Render
and AI-training notifications can never fire from a freshly polled
snapshot against a non-negative previous state — they could only fire
against a hand-edited persisted state with *negative* values. -/
theorem platform_checks_hardcode_zero_counters (run : Bool)
    (proc : Option PyStr) (tg ak : Bool) (now : String)
    (prevR : RenderParsed) (prevA : AiParsed) (u : Bool) :
    (∀ d, (check_render_status run proc now).2.1 = some d →
      d.jobs_active = 0 ∧ d.jobs_completed = 0 ∧ d.earnings_total = 0 ∧
        d.earnings_pending = 0 ∧
        (renderMsgs prevR (parse_render_status d) u ≠ [] →
          prevR.total_earnings < 0 ∨ prevR.active_jobs < 0)) ∧
    (∀ d, (check_ai_training_status run proc tg ak now).2.1 = some d →
      d.jobs_active = 0 ∧ d.jobs_completed = 0 ∧ d.earnings_total = 0 ∧
        d.earnings_pending = 0 ∧
        (aiMsgs prevA (parse_ai_training_status d) u ≠ [] →
          prevA.total_earnings < 0 ∨ prevA.active_jobs < 0)) := by
  constructor
  · intro d hd
    have hzero : d.jobs_active = 0 ∧ d.jobs_completed = 0 ∧
        d.earnings_total = 0 ∧ d.earnings_pending = 0 := by
      simp only [check_render_status] at hd
      split at hd <;> (injection hd with h; subst h; exact ⟨rfl, rfl, rfl, rfl⟩)
    refine ⟨hzero.1, hzero.2.1, hzero.2.2.1, hzero.2.2.2, ?_⟩
    intro hne
    by_contra hcon
    push_neg at hcon
    apply hne
    have he : ¬((parse_render_status d).total_earnings > prevR.total_earnings) := by
      simp only [parse_render_status, hzero.2.2.1]
      exact fun habs => absurd habs (not_lt.mpr hcon.1)
    have hj : ¬((parse_render_status d).active_jobs > prevR.active_jobs) := by
      simp only [parse_render_status, hzero.1]
      exact fun habs => absurd habs (not_lt.mpr hcon.2)
    simp [renderMsgs, he, hj]
  · intro d hd
    have hzero : d.jobs_active = 0 ∧ d.jobs_completed = 0 ∧
        d.earnings_total = 0 ∧ d.earnings_pending = 0 := by
      simp only [check_ai_training_status] at hd
      split at hd <;> (injection hd with h; subst h; exact ⟨rfl, rfl, rfl, rfl⟩)
    refine ⟨hzero.1, hzero.2.1, hzero.2.2.1, hzero.2.2.2, ?_⟩
    intro hne
    by_contra hcon
    push_neg at hcon
    apply hne
    have he : ¬((parse_ai_training_status d).total_earnings > prevA.total_earnings) := by
      simp only [parse_ai_training_status, hzero.2.2.1]
      exact fun habs => absurd habs (not_lt.mpr hcon.1)
    have hj : ¬((parse_ai_training_status d).active_jobs > prevA.active_jobs) := by
      simp only [parse_ai_training_status, hzero.1]
      exact fun habs => absurd habs (not_lt.mpr hcon.2)
    simp [aiMsgs, he, hj]

/-- C9 witness: the data of a concrete successful Render check has zero
active jobs. -/
theorem platform_checks_hardcode_zero_counters_w :
    ((⟨"t", "running".toList, none, 0, 0, 0, 0⟩ : RenderRaw).jobs_active = 0) :=
  ((platform_checks_hardcode_zero_counters true none false false "t"
    emptyRenderParsed emptyAiParsed true).1
    ⟨"t", "running".toList, none, 0, 0, 0, 0⟩ rfl).1

end GolemBot
